import Mathlib

set_option maxRecDepth 100000

/-!
Shallow embedding of `src/server.py` (the DaySignal backend signal core).

Prices and volumes are modelled as exact rationals (`ℚ`): the Python code
computes with IEEE floats, and the claims under study are about the exact
arithmetic relationships of the algorithm, so `ℚ` plays the role of the
reals.  Pandas makes every comparison with NaN false; a VWAP entry whose
cumulative volume is zero (0/0 → NaN) is modelled as `none`, and the
comparison helpers `oLt`, `oLe`, `oGt`, `oGe`, `oLtMul` return `false` on
`none`, matching float-NaN comparison semantics exactly.
-/

/-- One OHLCV bar (the `high`, `low`, `close`, `volume` columns of the
fetched dataframe).  Timestamps are not modelled: the external interface
guarantees the per-symbol series is already sorted ascending by timestamp
and deduplicated, so `sort_values("timestamp")` is the identity here. -/
structure Bar where
  high : ℚ
  low : ℚ
  close : ℚ
  volume : ℚ
deriving DecidableEq

/-- Default bar backing the guard-protected `iloc[-1]` / `iloc[-2]`
accesses (Python would raise `IndexError` on an empty frame; every use in
the program is behind a length guard, so the default is never observed). -/
def dummyBar : Bar := ⟨0, 0, 0, 0⟩

/-- Typical price of a bar: `tp = (df["high"] + df["low"] + df["close"]) / 3.0`
(server.py line 39). -/
def typicalPrice (b : Bar) : ℚ := (b.high + b.low + b.close) / 3

/-- Cumulative price·volume through index `i`: `pv.cumsum()` at row `i`,
where `pv = tp * df["volume"]` (server.py line 40). -/
def cumPV (bars : List Bar) (i : ℕ) : ℚ :=
  ((bars.take (i + 1)).map (fun b => typicalPrice b * b.volume)).sum

/-- Cumulative volume through index `i`: `df["volume"].cumsum()` at row `i`
(server.py line 41). -/
def cumVol (bars : List Bar) (i : ℕ) : ℚ :=
  ((bars.take (i + 1)).map Bar.volume).sum

/-- VWAP value at row `i`: `pv.cumsum() / df["volume"].cumsum()`
(server.py line 41).  When the cumulative volume is zero the float
division yields NaN, modelled as `none`. -/
def vwapAt (bars : List Bar) (i : ℕ) : Option ℚ :=
  if cumVol bars i = 0 then none else some (cumPV bars i / cumVol bars i)

/-- The full VWAP column produced by `compute_vwap` (server.py lines 38–41):
one value per bar. -/
def compute_vwap (bars : List Bar) : List (Option ℚ) :=
  (List.range bars.length).map (vwapAt bars)

/-- Float comparison `x < v` where `v` may be NaN (`none`): NaN compares
false. -/
def oLt (x : ℚ) (v : Option ℚ) : Bool :=
  match v with
  | none => false
  | some q => decide (x < q)

/-- Float comparison `x ≤ v` where `v` may be NaN (`none`). -/
def oLe (x : ℚ) (v : Option ℚ) : Bool :=
  match v with
  | none => false
  | some q => decide (x ≤ q)

/-- Float comparison `x > v` where `v` may be NaN (`none`). -/
def oGt (x : ℚ) (v : Option ℚ) : Bool :=
  match v with
  | none => false
  | some q => decide (q < x)

/-- Float comparison `x ≥ v` where `v` may be NaN (`none`). -/
def oGe (x : ℚ) (v : Option ℚ) : Bool :=
  match v with
  | none => false
  | some q => decide (q ≤ x)

/-- Float comparison `x < v * c` where `v` may be NaN (`none`); NaN times a
constant is NaN and compares false. -/
def oLtMul (x : ℚ) (v : Option ℚ) (c : ℚ) : Bool :=
  match v with
  | none => false
  | some q => decide (x < q * c)

/-- Pandas `.tail(n)`: the last `n` elements (all of them when the series
is shorter than `n`). -/
def lastN (n : ℕ) (xs : List α) : List α := xs.drop (xs.length - n)

/-- Pandas `.mean()` of a column, `Σ / count`. -/
def listMean (xs : List ℚ) : ℚ := xs.sum / xs.length

/-- Pandas `.min()` of a nonempty column (every use in the program is on a
series of length ≥ 10, so the `[]` default is never observed). -/
def listMin (xs : List ℚ) : ℚ :=
  match xs with
  | [] => 0
  | x :: rest => rest.foldl min x

/-- `avg_vol_last` (server.py lines 44–45): mean of the last `n` volumes,
or of all volumes when fewer than `n` bars exist. -/
def avg_vol_last (bars : List Bar) (n : ℕ) : ℚ :=
  if n ≤ bars.length then listMean (lastN n (bars.map Bar.volume))
  else listMean (bars.map Bar.volume)

/-- `traffic_light_from_spy` (server.py lines 48–56): classify the market
regime from the reference series' last close vs. its VWAP.  Python raises
`IndexError` on an empty frame; the program only calls this on a nonempty
series (the symbol is present in the batch), so the `dummyBar` default is
never observed there. -/
def traffic_light_from_spy (bars : List Bar) : String × String :=
  let lastBar := bars.getD (bars.length - 1) dummyBar
  let v := vwapAt bars (bars.length - 1)
  if oGe lastBar.close v then ("GREEN", "Markt OK (SPY über VWAP)")
  else if oLtMul lastBar.close v (998 / 1000) then ("RED", "Vorsicht (SPY unter VWAP)")
  else ("YELLOW", "Markt neutral")

/-- Action of a signal result (the `"action"` key, `"WAIT"` or `"BUY"`). -/
inductive SigAction where
  | WAIT
  | BUY
deriving DecidableEq

/-- The dictionary returned by `vwap_reclaim_long_signal`: WAIT branches
carry only action/confidence/reasons (the price fields default to `none`,
matching the aggregator's `sig.get(...)` returning `None`). -/
structure SignalResult where
  action : SigAction
  confidence : ℕ
  entryPrice : Option ℚ := none
  stop : Option ℚ := none
  tp1 : Option ℚ := none
  tp2 : Option ℚ := none
  shares : Option ℤ := none
  reasons : List String
deriving DecidableEq

/-- The `dip` flag (server.py line 72):
`(d["close"].tail(30) < d["vwap"].tail(30)).any()` — an index-aligned
elementwise comparison over the last 30 rows. -/
def dipOf (bars : List Bar) : Bool :=
  ((lastN 30 (bars.map Bar.close)).zip (lastN 30 (compute_vwap bars))).any
    (fun p => oLt p.1 p.2)

/-- The `reclaim` flag (server.py line 73):
`last["close"] > last["vwap"] and prev["close"] <= prev["vwap"]`. -/
def reclaimOf (bars : List Bar) : Bool :=
  oGt (bars.getD (bars.length - 1) dummyBar).close (vwapAt bars (bars.length - 1)) &&
  oLe (bars.getD (bars.length - 2) dummyBar).close (vwapAt bars (bars.length - 2))

/-- The `vol_ok` flag (server.py line 74):
`last["volume"] >= 1.3 * avg_vol_last(d, 20)`. -/
def volOkOf (bars : List Bar) : Bool :=
  decide ((13 / 10 : ℚ) * avg_vol_last bars 20 ≤ (bars.getD (bars.length - 1) dummyBar).volume)

/-- The accumulated `reasons` list (server.py lines 76–79). -/
def reasonsOf (bars : List Bar) : List String :=
  (if dipOf bars then ["Kurs war unter VWAP (Dip)"] else []) ++
  (if reclaimOf bars then ["Kurs wieder über VWAP (Reclaim)"] else []) ++
  (if volOkOf bars then ["Volumen bestätigt"] else [])

/-- `entry = float(last["close"])` (server.py line 82). -/
def entryOf (bars : List Bar) : ℚ := (bars.getD (bars.length - 1) dummyBar).close

/-- `recent_low = float(d["low"].tail(10).min())` (server.py line 83). -/
def recentLowOf (bars : List Bar) : ℚ := listMin (lastN 10 (bars.map Bar.low))

/-- `stop = recent_low - 0.001 * entry` (server.py line 84). -/
def stopOf (bars : List Bar) : ℚ := recentLowOf bars - (1 / 1000) * entryOf bars

/-- `r = entry - stop` (server.py line 86). -/
def rOf (bars : List Bar) : ℚ := entryOf bars - stopOf bars

/-- `shares = int(RISK_EUR / r)` (server.py line 90).  Python `int()`
truncates toward zero; this branch runs only after `r > 0` has been
checked, and for a quotient that is either negative or ≥ 1 truncation and
floor give the same `shares < 1` test and the same recorded value, so
`⌊·⌋` is observationally faithful. -/
def sharesOf (riskBudget : ℚ) (bars : List Bar) : ℤ := ⌊riskBudget / rOf bars⌋

/-- `RISK_EUR` (server.py line 35), default configuration value `25.0`. -/
def RISK_EUR : ℚ := 25

/-- `vwap_reclaim_long_signal` (server.py lines 59–111).  The module-level
`RISK_EUR` constant is passed explicitly as `riskBudget`. -/
def vwap_reclaim_long_signal (riskBudget : ℚ) (bars : List Bar) (market_light : String) :
    SignalResult :=
  if market_light ≠ "GREEN" then
    { action := .WAIT, confidence := 35, reasons := ["Markt nicht grün → kein Long-Trade"] }
  else if bars.length < 50 then
    { action := .WAIT, confidence := 40, reasons := ["Zu wenig Live-Daten (warte ein paar Minuten)"] }
  else if dipOf bars && reclaimOf bars && volOkOf bars then
    if rOf bars ≤ 0 then
      { action := .WAIT, confidence := 50,
        reasons := reasonsOf bars ++ ["Stop unplausibel → kein Trade"] }
    else if sharesOf riskBudget bars < 1 then
      { action := .WAIT, confidence := 55,
        reasons := reasonsOf bars ++ ["Stop zu groß für Risiko → kein Trade"] }
    else
      { action := .BUY, confidence := 75,
        entryPrice := some (entryOf bars),
        stop := some (stopOf bars),
        tp1 := some (entryOf bars + 1 * rOf bars),
        tp2 := some (entryOf bars + 2 * rOf bars),
        shares := some (sharesOf riskBudget bars),
        reasons := reasonsOf bars ++ ["Regeln erfüllt (VWAP Reclaim Long)"] }
  else if reclaimOf bars && !volOkOf bars then
    { action := .WAIT, confidence := 55, reasons := reasonsOf bars ++ ["Volumen fehlt → warten"] }
  else
    { action := .WAIT, confidence := 45,
      reasons := if (reasonsOf bars).isEmpty then ["Kein sauberes Setup"] else reasonsOf bars }

/-- `WATCHLIST` (server.py line 34). -/
def WATCHLIST : List String := ["SPY", "QQQ", "AAPL", "MSFT", "NVDA"]

/-- A fetched batch, modelled as the flat row list of the multi-index
dataframe returned by the provider: one `(symbol, bar)` row each.
`df.empty` is `batch = []`. -/
def hasSym (batch : List (String × Bar)) (s : String) : Bool :=
  batch.any (fun p => p.1 = s)

/-- `bars.xs(sym, level=0)` followed by the (identity) timestamp sort:
the rows of one symbol, in order. -/
def symBars (batch : List (String × Bar)) (s : String) : List Bar :=
  (batch.filter (fun p => p.1 = s)).map Prod.snd

/-- The payload of a successful `/today` evaluation: the market light plus
one signal per covered symbol.  The purely presentational constants of the
Python record (`setup`, `entryTriggerText`, `riskEUR`, `updatedAtISO`) are
omitted; each entry keeps the symbol and the full engine result. -/
structure TodayOut where
  spyLight : String
  note : String
  signals : List (String × SignalResult)
deriving DecidableEq

/-- The `today` endpoint core (server.py lines 114–162): raise on an empty
batch (the `RuntimeError` is surfaced to the caller as the single error of
the request, modelled as `Except.error`), else classify the regime from
SPY (fail-open YELLOW when SPY is absent) and run the signal engine once
per watch-listed symbol present in the batch, in watchlist order. -/
def today_eval (riskBudget : ℚ) (batch : List (String × Bar)) : Except String TodayOut :=
  if batch.isEmpty then
    Except.error "No bars returned. Check Alpaca key/plan and symbol coverage."
  else
    let ml :=
      if !hasSym batch "SPY" then ("YELLOW", "SPY Daten fehlen (warte)")
      else traffic_light_from_spy (symBars batch "SPY")
    Except.ok
      { spyLight := ml.1, note := ml.2,
        signals :=
          (WATCHLIST.filter (fun s => hasSym batch s)).map
            (fun s => (s, vwap_reclaim_long_signal riskBudget (symBars batch s) ml.1)) }

/-- Concrete 50-bar series producing a BUY: 48 flat bars, a dip bar, and a
high-volume reclaim bar. -/
def c1bars : List Bar :=
  List.replicate 48 ⟨100, 100, 100, 10⟩ ++ [⟨90, 90, 90, 10⟩, ⟨101, 101, 101, 100⟩]

/-- Concrete candidate-BUY series realizing the spec's sizing example:
entry 100.00, recent low 99.60, stop 99.50, risk per share 0.50. -/
def c4bars : List Bar :=
  List.replicate 48 ⟨101, 101, 101, 10⟩ ++ [⟨99.6, 99.6, 99.6, 10⟩, ⟨100, 99.7, 100, 10000⟩]

/-- Concrete series with a reclaim but with last volume equal to the
average (below the 1.3× confirmation threshold). -/
def c5bars : List Bar :=
  List.replicate 48 ⟨100, 100, 100, 100⟩ ++ [⟨90, 90, 90, 100⟩, ⟨101, 101, 101, 100⟩]

/-- Concrete 50-bar series whose volume is zero everywhere. -/
def c7bars : List Bar := List.replicate 50 ⟨100, 100, 100, 0⟩

/-- Concrete flat 50-bar series with well-formed bars (low ≤ close,
positive close). -/
def c10bars : List Bar := List.replicate 50 ⟨100, 100, 100, 10⟩

/-- Scaling every bar's volume by a constant `c` (prices untouched). -/
def scaleVol (c : ℚ) (bars : List Bar) : List Bar :=
  bars.map (fun b => ⟨b.high, b.low, b.close, c * b.volume⟩)

theorem foldl_min_le_init (l : List ℚ) (a : ℚ) : l.foldl min a ≤ a := by
  induction l generalizing a with
  | nil => exact le_refl a
  | cons b t ih => exact le_trans (ih (min a b)) (min_le_left a b)

theorem foldl_min_le_mem (l : List ℚ) (a : ℚ) : ∀ x ∈ l, l.foldl min a ≤ x := by
  induction l generalizing a with
  | nil => intro x hx; cases hx
  | cons b t ih =>
    intro x hx
    rcases List.mem_cons.mp hx with rfl | hx
    · exact le_trans (foldl_min_le_init t (min a x)) (min_le_right a x)
    · exact ih (min a b) x hx

theorem listMin_le (xs : List ℚ) (x : ℚ) (hx : x ∈ xs) : listMin xs ≤ x := by
  cases xs with
  | nil => cases hx
  | cons a l =>
    rcases List.mem_cons.mp hx with rfl | hx
    · exact foldl_min_le_init l x
    · exact foldl_min_le_mem l a x hx

theorem drop_getElem?_eq (xs : List α) (m i : ℕ) : (xs.drop m)[i]? = xs[m + i]? := by
  induction xs generalizing m i with
  | nil => simp
  | cons a t ih =>
    cases m with
    | zero => simp
    | succ m =>
      have : m + 1 + i = (m + i) + 1 := by omega
      simp [this, ih m i]

theorem getD_last_eq (bars : List Bar) (h : bars.length - 1 < bars.length) :
    bars.getD (bars.length - 1) dummyBar = bars[bars.length - 1] := by
  simp [List.getD_eq_getElem?_getD, List.getElem?_eq_getElem h]

theorem getD_last_low_mem (bars : List Bar) (h10 : 10 ≤ bars.length) :
    (bars.getD (bars.length - 1) dummyBar).low ∈ lastN 10 (bars.map Bar.low) := by
  have hlt : bars.length - 1 < bars.length := by omega
  rw [List.mem_iff_getElem?]
  refine ⟨9, ?_⟩
  unfold lastN
  rw [drop_getElem?_eq]
  have hidx : (bars.map Bar.low).length - 10 + 9 = bars.length - 1 := by
    simp only [List.length_map]; omega
  rw [hidx, List.getElem?_map, List.getElem?_eq_getElem hlt, getD_last_eq bars hlt]
  rfl

theorem rOf_pos (bars : List Bar) (hlen : 50 ≤ bars.length)
    (hb : ∀ b ∈ bars, b.low ≤ b.close ∧ 0 < b.close) : 0 < rOf bars := by
  have hlt : bars.length - 1 < bars.length := by omega
  have hmem : bars.getD (bars.length - 1) dummyBar ∈ bars := by
    rw [getD_last_eq bars hlt]; exact List.getElem_mem hlt
  obtain ⟨hlc, hc⟩ := hb _ hmem
  have hlow : recentLowOf bars ≤ (bars.getD (bars.length - 1) dummyBar).low :=
    listMin_le _ _ (getD_last_low_mem bars (by omega))
  unfold rOf stopOf entryOf
  linarith

/-- C1: for every BUY result of the signal engine the prices are strictly
ordered stop < entryPrice < tp1 < tp2, shares is at least 1, and
tp2 − entryPrice = 2 × (entryPrice − stop) exactly. -/
theorem buy_result_invariants (rb : ℚ) (bars : List Bar) (light : String)
    (h : (vwap_reclaim_long_signal rb bars light).action = .BUY) :
    ∃ e s t1 t2 sh,
      (vwap_reclaim_long_signal rb bars light).entryPrice = some e ∧
      (vwap_reclaim_long_signal rb bars light).stop = some s ∧
      (vwap_reclaim_long_signal rb bars light).tp1 = some t1 ∧
      (vwap_reclaim_long_signal rb bars light).tp2 = some t2 ∧
      (vwap_reclaim_long_signal rb bars light).shares = some sh ∧
      s < e ∧ e < t1 ∧ t1 < t2 ∧ 1 ≤ sh ∧ t2 - e = 2 * (e - s) := by
  unfold vwap_reclaim_long_signal at h ⊢
  split_ifs at h ⊢ with h1 h2 h3 h4 h5
  have hr : 0 < rOf bars := not_le.mp h4
  have hsh : 1 ≤ sharesOf rb bars := not_lt.mp h5
  have hrdef : rOf bars = entryOf bars - stopOf bars := rfl
  refine ⟨entryOf bars, stopOf bars, entryOf bars + 1 * rOf bars,
    entryOf bars + 2 * rOf bars, sharesOf rb bars,
    rfl, rfl, rfl, rfl, rfl, ?_, ?_, ?_, hsh, ?_⟩
  · rw [hrdef] at hr; linarith
  · linarith
  · linarith
  · rw [hrdef]; ring

/-- C1 witness: a concrete 50-bar GREEN-regime series on which the engine
returns BUY, so the invariants apply. -/
theorem buy_result_invariants_witness :
    (vwap_reclaim_long_signal 25 c1bars "GREEN").action = .BUY ∧
    (∃ e s t1 t2 sh,
      (vwap_reclaim_long_signal 25 c1bars "GREEN").entryPrice = some e ∧
      (vwap_reclaim_long_signal 25 c1bars "GREEN").stop = some s ∧
      (vwap_reclaim_long_signal 25 c1bars "GREEN").tp1 = some t1 ∧
      (vwap_reclaim_long_signal 25 c1bars "GREEN").tp2 = some t2 ∧
      (vwap_reclaim_long_signal 25 c1bars "GREEN").shares = some sh ∧
      s < e ∧ e < t1 ∧ t1 < t2 ∧ 1 ≤ sh ∧ t2 - e = 2 * (e - s)) :=
  ⟨by with_unfolding_all decide,
   buy_result_invariants 25 c1bars "GREEN" (by with_unfolding_all decide)⟩

/-- C2: BUY is only possible when the regime is GREEN and at least 50 bars
exist; a non-GREEN regime yields WAIT with confidence 35, and a GREEN
regime with fewer than 50 bars yields WAIT with confidence 40. -/
theorem regime_and_data_gates (rb : ℚ) (bars : List Bar) (light : String) :
    ((vwap_reclaim_long_signal rb bars light).action = .BUY →
        light = "GREEN" ∧ 50 ≤ bars.length) ∧
    (light ≠ "GREEN" → vwap_reclaim_long_signal rb bars light =
        { action := .WAIT, confidence := 35,
          reasons := ["Markt nicht grün → kein Long-Trade"] }) ∧
    (light = "GREEN" → bars.length < 50 → vwap_reclaim_long_signal rb bars light =
        { action := .WAIT, confidence := 40,
          reasons := ["Zu wenig Live-Daten (warte ein paar Minuten)"] }) := by
  refine ⟨?_, ?_, ?_⟩
  · intro h
    unfold vwap_reclaim_long_signal at h
    split_ifs at h with h1 h2 h3 h4 h5
    exact ⟨not_not.mp h1, Nat.le_of_not_lt h2⟩
  · intro h1
    unfold vwap_reclaim_long_signal
    rw [if_pos h1]
  · intro h1 h2
    unfold vwap_reclaim_long_signal
    rw [if_neg (not_not_intro h1), if_pos h2]

/-- C2 witness: the gate outcomes at concrete inputs (a YELLOW regime, and
a GREEN regime with an empty series). -/
theorem regime_and_data_gates_witness :
    vwap_reclaim_long_signal 25 [] "YELLOW" =
      { action := .WAIT, confidence := 35,
        reasons := ["Markt nicht grün → kein Long-Trade"] } ∧
    vwap_reclaim_long_signal 25 [] "GREEN" =
      { action := .WAIT, confidence := 40,
        reasons := ["Zu wenig Live-Daten (warte ein paar Minuten)"] } :=
  ⟨(regime_and_data_gates 25 [] "YELLOW").2.1 (by decide),
   (regime_and_data_gates 25 [] "GREEN").2.2 rfl (by decide)⟩

/-- C10: when every bar has low ≤ close and a positive close, the risk per
share of a candidate BUY is strictly positive, so the defensive
"implausible stop" WAIT branch (confidence 50) is unreachable. -/
theorem implausible_stop_unreachable (rb : ℚ) (bars : List Bar) (light : String)
    (hb : ∀ b ∈ bars, b.low ≤ b.close ∧ 0 < b.close) :
    (vwap_reclaim_long_signal rb bars light).confidence ≠ 50 := by
  unfold vwap_reclaim_long_signal
  split_ifs with h1 h2 h3 h4 h5 h6 h7
  all_goals try simp
  exact absurd (rOf_pos bars (Nat.le_of_not_lt h2) hb) (not_lt.mpr h4)

/-- C10 witness: the conclusion at a concrete well-formed 50-bar series. -/
theorem implausible_stop_unreachable_witness :
    decide ((vwap_reclaim_long_signal 25 c10bars "GREEN").confidence = 50) = false :=
  decide_eq_false
    (implausible_stop_unreachable 25 c10bars "GREEN" (by with_unfolding_all decide))

theorem cumPV_nonneg (bars : List Bar)
    (hw : ∀ b ∈ bars, 0 ≤ b.high ∧ 0 ≤ b.low ∧ 0 ≤ b.close ∧ 0 ≤ b.volume)
    (i : ℕ) : 0 ≤ cumPV bars i := by
  unfold cumPV
  apply List.sum_nonneg
  intro x hx
  obtain ⟨b, hb, rfl⟩ := List.mem_map.mp hx
  obtain ⟨hh, hl, hc, hvol⟩ := hw b (List.mem_of_mem_take hb)
  have htp : 0 ≤ typicalPrice b := by
    unfold typicalPrice
    have : (0 : ℚ) ≤ b.high + b.low + b.close := by linarith
    exact div_nonneg this (by norm_num)
  exact mul_nonneg htp hvol

/-- C3: on a reference series of well-formed bars with positive cumulative
volume, the classifier is GREEN iff last close ≥ its VWAP, RED iff last
close < 0.998 × its VWAP, and YELLOW exactly on the remaining dead-band. -/
theorem traffic_light_classification (bars : List Bar)
    (hw : ∀ b ∈ bars, 0 ≤ b.high ∧ 0 ≤ b.low ∧ 0 ≤ b.close ∧ 0 ≤ b.volume)
    (hv : 0 < cumVol bars (bars.length - 1)) :
    (((traffic_light_from_spy bars).1 = "GREEN") ↔
        cumPV bars (bars.length - 1) / cumVol bars (bars.length - 1) ≤
          (bars.getD (bars.length - 1) dummyBar).close) ∧
    (((traffic_light_from_spy bars).1 = "RED") ↔
        (bars.getD (bars.length - 1) dummyBar).close <
          cumPV bars (bars.length - 1) / cumVol bars (bars.length - 1) * (998 / 1000)) ∧
    (((traffic_light_from_spy bars).1 = "YELLOW") ↔
        (cumPV bars (bars.length - 1) / cumVol bars (bars.length - 1) * (998 / 1000) ≤
            (bars.getD (bars.length - 1) dummyBar).close ∧
          (bars.getD (bars.length - 1) dummyBar).close <
            cumPV bars (bars.length - 1) / cumVol bars (bars.length - 1))) := by
  have hw0 : 0 ≤ cumPV bars (bars.length - 1) / cumVol bars (bars.length - 1) :=
    div_nonneg (cumPV_nonneg bars hw _) (le_of_lt hv)
  have hvw : vwapAt bars (bars.length - 1) =
      some (cumPV bars (bars.length - 1) / cumVol bars (bars.length - 1)) := by
    unfold vwapAt
    rw [if_neg (ne_of_gt hv)]
  unfold traffic_light_from_spy
  rw [hvw]
  simp only [oGe, oLtMul, decide_eq_true_eq]
  split_ifs with hg hred
  · refine ⟨iff_of_true rfl hg, iff_of_false (by decide) ?_, iff_of_false (by decide) ?_⟩
    · intro hcon; linarith
    · rintro ⟨h1, h2⟩; linarith
  · refine ⟨iff_of_false (by decide) ?_, iff_of_true rfl hred, iff_of_false (by decide) ?_⟩
    · intro hcon; exact hg hcon
    · rintro ⟨h1, h2⟩; linarith
  · refine ⟨iff_of_false (by decide) ?_, iff_of_false (by decide) ?_,
      iff_of_true rfl ⟨not_lt.mp hred, not_le.mp hg⟩⟩
    · intro hcon; exact hg hcon
    · intro hcon; exact hred hcon

/-- C3 witness: on a one-bar series above its VWAP the classifier is GREEN. -/
theorem traffic_light_classification_witness :
    (0 < cumVol [(⟨100, 100, 100, 10⟩ : Bar)] 0) ∧
    (traffic_light_from_spy [(⟨100, 100, 100, 10⟩ : Bar)]).1 = "GREEN" :=
  ⟨by with_unfolding_all decide,
   ((traffic_light_classification [⟨100, 100, 100, 10⟩] (by with_unfolding_all decide)
       (by with_unfolding_all decide)).1).mpr (by with_unfolding_all decide)⟩

/-- C4: on a candidate BUY the position size is ⌊riskBudget / r⌋ with
r = entry − stop; a floor below 1 yields WAIT with confidence 55 instead
of BUY. -/
theorem sizing_floor (rb : ℚ) (bars : List Bar)
    (hlen : 50 ≤ bars.length)
    (hd : dipOf bars = true) (hrc : reclaimOf bars = true) (hvo : volOkOf bars = true)
    (hpos : 0 < rOf bars) :
    (sharesOf rb bars < 1 →
        vwap_reclaim_long_signal rb bars "GREEN" =
          { action := .WAIT, confidence := 55,
            reasons := reasonsOf bars ++ ["Stop zu groß für Risiko → kein Trade"] }) ∧
    (1 ≤ sharesOf rb bars →
        (vwap_reclaim_long_signal rb bars "GREEN").action = .BUY ∧
        (vwap_reclaim_long_signal rb bars "GREEN").shares =
          some ⌊rb / (entryOf bars - stopOf bars)⌋) := by
  have hng : ¬(("GREEN" : String) ≠ "GREEN") := not_not_intro rfl
  have hnl : ¬(bars.length < 50) := Nat.not_lt.mpr hlen
  have hcond : (dipOf bars && reclaimOf bars && volOkOf bars) = true := by
    rw [hd, hrc, hvo]; rfl
  have hnr : ¬(rOf bars ≤ 0) := not_le.mpr hpos
  constructor
  · intro hsh
    unfold vwap_reclaim_long_signal
    rw [if_neg hng, if_neg hnl, if_pos hcond, if_neg hnr, if_pos hsh]
  · intro hsh
    unfold vwap_reclaim_long_signal
    rw [if_neg hng, if_neg hnl, if_pos hcond, if_neg hnr, if_neg (not_lt.mpr hsh)]
    exact ⟨rfl, rfl⟩

/-- C4 witness: the spec's worked example.  On `c4bars` the candidate BUY
has entry 100.00 and stop 99.50, so r = 0.50 and shares = ⌊25 / 0.5⌋ = 50. -/
theorem sizing_floor_witness :
    dipOf c4bars = true ∧ reclaimOf c4bars = true ∧ volOkOf c4bars = true ∧
    0 < rOf c4bars ∧
    (vwap_reclaim_long_signal 25 c4bars "GREEN").action = .BUY ∧
    (vwap_reclaim_long_signal 25 c4bars "GREEN").shares = some 50 ∧
    entryOf c4bars = 100 ∧ stopOf c4bars = 99.5 := by
  have h := (sizing_floor 25 c4bars (by with_unfolding_all decide)
      (by with_unfolding_all decide) (by with_unfolding_all decide)
      (by with_unfolding_all decide) (by with_unfolding_all decide)).2
      (by with_unfolding_all decide)
  refine ⟨by with_unfolding_all decide, by with_unfolding_all decide,
    by with_unfolding_all decide, by with_unfolding_all decide, h.1, ?_,
    by with_unfolding_all decide, by with_unfolding_all decide⟩
  rw [h.2]
  with_unfolding_all decide

/-- C5: when both gates pass, the reclaim holds but the volume
confirmation fails, the engine returns WAIT with confidence 55 and a
reason naming the missing volume — regardless of the dip flag. -/
theorem volume_missing_wait (rb : ℚ) (bars : List Bar)
    (hlen : 50 ≤ bars.length)
    (hrc : reclaimOf bars = true) (hvo : volOkOf bars = false) :
    (vwap_reclaim_long_signal rb bars "GREEN").action = .WAIT ∧
    (vwap_reclaim_long_signal rb bars "GREEN").confidence = 55 ∧
    "Volumen fehlt → warten" ∈ (vwap_reclaim_long_signal rb bars "GREEN").reasons := by
  have hng : ¬(("GREEN" : String) ≠ "GREEN") := not_not_intro rfl
  have hnl : ¬(bars.length < 50) := Nat.not_lt.mpr hlen
  have hcond : ¬((dipOf bars && reclaimOf bars && volOkOf bars) = true) := by
    rw [hvo]; simp
  have hcond2 : (reclaimOf bars && !volOkOf bars) = true := by
    rw [hrc, hvo]; rfl
  unfold vwap_reclaim_long_signal
  rw [if_neg hng, if_neg hnl, if_neg hcond, if_pos hcond2]
  refine ⟨rfl, rfl, ?_⟩
  simp

/-- C5 witness: a concrete reclaim series whose last-bar volume is exactly
the 20-bar average (1.0× < 1.3×). -/
theorem volume_missing_wait_witness :
    reclaimOf c5bars = true ∧ volOkOf c5bars = false ∧
    (vwap_reclaim_long_signal 25 c5bars "GREEN").action = .WAIT ∧
    (vwap_reclaim_long_signal 25 c5bars "GREEN").confidence = 55 ∧
    "Volumen fehlt → warten" ∈ (vwap_reclaim_long_signal 25 c5bars "GREEN").reasons := by
  obtain ⟨h1, h2, h3⟩ := volume_missing_wait 25 c5bars (by with_unfolding_all decide)
    (by with_unfolding_all decide) (by with_unfolding_all decide)
  exact ⟨by with_unfolding_all decide, by with_unfolding_all decide, h1, h2, h3⟩

/-- C6: an entirely empty batch is refused with the single explicit error
(the `RuntimeError` surfaced to the caller); no regime or signal records
are produced, since the error constructor carries no payload. -/
theorem empty_batch_error (rb : ℚ) :
    today_eval rb [] =
      Except.error "No bars returned. Check Alpaca key/plan and symbol coverage." := rfl

theorem cumVol_eq_zero (bars : List Bar) (hz : ∀ b ∈ bars, b.volume = 0) (i : ℕ) :
    cumVol bars i = 0 := by
  unfold cumVol
  apply List.sum_eq_zero
  intro x hx
  obtain ⟨b, hb, rfl⟩ := List.mem_map.mp hx
  exact hz b (List.mem_of_mem_take hb)

theorem vwapAt_zero_volume (bars : List Bar) (hz : ∀ b ∈ bars, b.volume = 0) (i : ℕ) :
    vwapAt bars i = none := by
  unfold vwapAt
  rw [if_pos (cumVol_eq_zero bars hz i)]

theorem reclaimOf_zero_volume (bars : List Bar) (hz : ∀ b ∈ bars, b.volume = 0) :
    reclaimOf bars = false := by
  unfold reclaimOf
  rw [vwapAt_zero_volume bars hz (bars.length - 1), vwapAt_zero_volume bars hz (bars.length - 2)]
  rfl

/-- C7 counterexample: on a concrete 50-bar all-zero-volume series the
code does evaluate the classifier and the signal rules on the undefined
(NaN) VWAP, instead of treating the series as insufficient data: the
engine lands in the ordinary no-clean-setup branch (confidence 45, not
the insufficient-data confidence 40 — the volume check even "passes",
0 ≥ 1.3·0), and the classifier returns the ordinary neutral YELLOW. -/
theorem zero_volume_not_insufficient_cex :
    (vwap_reclaim_long_signal 25 c7bars "GREEN").confidence = 45 ∧
    decide ((vwap_reclaim_long_signal 25 c7bars "GREEN").confidence = 40) = false ∧
    (vwap_reclaim_long_signal 25 c7bars "GREEN").reasons = ["Volumen bestätigt"] ∧
    traffic_light_from_spy c7bars = ("YELLOW", "Markt neutral") := by
  with_unfolding_all decide

/-- C7 (amended): on an all-zero-volume series no VWAP value is defined
(`none` at every index, NaN in the source); the pipeline still evaluates
the classifier and signal rules, but every comparison against the
undefined VWAP is false, so the engine can never return BUY and the
classifier falls through to YELLOW. -/
theorem zero_volume_no_vwap_no_buy (rb : ℚ) (bars : List Bar) (light : String)
    (hz : ∀ b ∈ bars, b.volume = 0) :
    (∀ i, vwapAt bars i = none) ∧
    (vwap_reclaim_long_signal rb bars light).action ≠ .BUY ∧
    (traffic_light_from_spy bars).1 = "YELLOW" := by
  refine ⟨vwapAt_zero_volume bars hz, ?_, ?_⟩
  · unfold vwap_reclaim_long_signal
    split_ifs with h1 h2 h3 h4 h5 h6 h7
    all_goals try simp
    rw [reclaimOf_zero_volume bars hz] at h3
    simp at h3
  · unfold traffic_light_from_spy
    rw [vwapAt_zero_volume bars hz]
    rfl

/-- C7 witness: the amended statement instantiated on the concrete
all-zero-volume 50-bar series. -/
theorem zero_volume_no_vwap_no_buy_witness :
    vwapAt c7bars 0 = none ∧
    decide ((vwap_reclaim_long_signal 25 c7bars "GREEN").action = .BUY) = false ∧
    (traffic_light_from_spy c7bars).1 = "YELLOW" := by
  obtain ⟨h1, h2, h3⟩ :=
    zero_volume_no_vwap_no_buy 25 c7bars "GREEN" (by with_unfolding_all decide)
  exact ⟨h1 0, decide_eq_false h2, h3⟩

/-- C8 counterexample: with SPY absent from a batch containing only QQQ,
the regime does default to YELLOW with the missing-reference note, but
NOT every watch-listed symbol is evaluated: the output contains a record
for QQQ only, although AAPL (among others) is watch-listed — symbols
absent from the batch are silently skipped. -/
theorem missing_spy_skips_absent_cex :
    today_eval 25 [("QQQ", ⟨100, 100, 100, 10⟩)] =
      Except.ok
        { spyLight := "YELLOW", note := "SPY Daten fehlen (warte)",
          signals := [("QQQ",
            { action := .WAIT, confidence := 35,
              reasons := ["Markt nicht grün → kein Long-Trade"] })] } ∧
    "AAPL" ∈ WATCHLIST ∧
    List.map Prod.fst [(("QQQ" : String),
        ({ action := .WAIT, confidence := 35,
           reasons := ["Markt nicht grün → kein Long-Trade"] } : SignalResult))] = ["QQQ"] :=
  ⟨by with_unfolding_all rfl, by decide, rfl⟩

/-- C8 (amended): with a nonempty batch from which the reference symbol
SPY is entirely absent, the regime defaults to YELLOW with the note
"SPY Daten fehlen (warte)", and every watch-listed symbol PRESENT in the
batch is evaluated against that YELLOW regime, in watchlist order; absent
symbols are skipped. -/
theorem missing_spy_yellow_evaluates_present (rb : ℚ) (batch : List (String × Bar))
    (hne : batch ≠ []) (hspy : hasSym batch "SPY" = false) :
    today_eval rb batch =
      Except.ok
        { spyLight := "YELLOW", note := "SPY Daten fehlen (warte)",
          signals := (WATCHLIST.filter (fun s => hasSym batch s)).map
            (fun s => (s, vwap_reclaim_long_signal rb (symBars batch s) "YELLOW")) } := by
  have h1 : ¬(batch.isEmpty = true) := by
    simp [List.isEmpty_iff, hne]
  unfold today_eval
  rw [if_neg h1, hspy]
  rfl

/-- C8 witness: the amended statement at a concrete one-symbol batch. -/
theorem missing_spy_yellow_evaluates_present_witness :
    hasSym [(("QQQ" : String), (⟨100, 100, 100, 10⟩ : Bar))] "SPY" = false ∧
    today_eval 25 [("QQQ", ⟨100, 100, 100, 10⟩)] =
      Except.ok
        { spyLight := "YELLOW", note := "SPY Daten fehlen (warte)",
          signals := (WATCHLIST.filter
              (fun s => hasSym [("QQQ", ⟨100, 100, 100, 10⟩)] s)).map
            (fun s => (s, vwap_reclaim_long_signal 25
                (symBars [("QQQ", ⟨100, 100, 100, 10⟩)] s) "YELLOW")) } :=
  ⟨by decide,
   missing_spy_yellow_evaluates_present 25 [("QQQ", ⟨100, 100, 100, 10⟩)]
     (by decide) (by decide)⟩

theorem cumVol_scaleVol (c : ℚ) (bars : List Bar) (i : ℕ) :
    cumVol (scaleVol c bars) i = c * cumVol bars i := by
  unfold cumVol scaleVol
  rw [← List.map_take, List.map_map]
  have h : (Bar.volume ∘ fun b : Bar => (⟨b.high, b.low, b.close, c * b.volume⟩ : Bar)) =
      fun b : Bar => c * b.volume := rfl
  rw [h, List.sum_map_mul_left]

theorem cumPV_scaleVol (c : ℚ) (bars : List Bar) (i : ℕ) :
    cumPV (scaleVol c bars) i = c * cumPV bars i := by
  unfold cumPV scaleVol
  rw [← List.map_take, List.map_map]
  have h : ((fun b : Bar => typicalPrice b * b.volume) ∘
      fun b : Bar => (⟨b.high, b.low, b.close, c * b.volume⟩ : Bar)) =
      fun b : Bar => c * (typicalPrice b * b.volume) := by
    funext b
    show typicalPrice ⟨b.high, b.low, b.close, c * b.volume⟩ * (c * b.volume) =
      c * (typicalPrice b * b.volume)
    have htp : typicalPrice ⟨b.high, b.low, b.close, c * b.volume⟩ = typicalPrice b := rfl
    rw [htp]; ring
  rw [h, List.sum_map_mul_left]

theorem vwapAt_scaleVol (c : ℚ) (hc : c ≠ 0) (bars : List Bar) (i : ℕ) :
    vwapAt (scaleVol c bars) i = vwapAt bars i := by
  unfold vwapAt
  rw [cumVol_scaleVol, cumPV_scaleVol]
  by_cases h : cumVol bars i = 0
  · rw [h, mul_zero]
    simp
  · rw [if_neg h, if_neg (mul_ne_zero hc h)]
    rw [mul_div_mul_left _ _ hc]

/-- C9 counterexample: a single-bar series whose bar has volume 0 has an
undefined VWAP (0/0 → NaN in the source, `none` here), which is not equal
to the bar's typical price, refuting the unconditional single-bar part of
the claim. -/
theorem vwap_single_bar_zero_volume_cex :
    compute_vwap [(⟨1, 1, 1, 0⟩ : Bar)] = [none] ∧
    typicalPrice (⟨1, 1, 1, 0⟩ : Bar) = 1 ∧
    decide (compute_vwap [(⟨1, 1, 1, 0⟩ : Bar)] =
      [some (typicalPrice (⟨1, 1, 1, 0⟩ : Bar))]) = false := by
  with_unfolding_all decide

/-- C9 (amended): scaling every bar's volume by a positive constant
leaves the entire VWAP sequence unchanged, and a single-bar series has
VWAP equal to the bar's typical price provided the bar's volume is
nonzero (with volume zero the VWAP is undefined). -/
theorem vwap_scale_invariant_and_single_bar (c : ℚ) (hc : 0 < c) (bars : List Bar)
    (b : Bar) (hb : b.volume ≠ 0) :
    compute_vwap (scaleVol c bars) = compute_vwap bars ∧
    compute_vwap [b] = [some (typicalPrice b)] := by
  constructor
  · unfold compute_vwap
    rw [show (scaleVol c bars).length = bars.length from List.length_map _ _]
    exact List.map_congr_left (fun i _ => vwapAt_scaleVol c (ne_of_gt hc) bars i)
  · unfold compute_vwap
    rw [show ([b] : List Bar).length = 1 from rfl,
      show List.range 1 = [0] from rfl, List.map_singleton]
    unfold vwapAt
    have h1 : cumVol [b] 0 = b.volume := by unfold cumVol; simp
    have h2 : cumPV [b] 0 = typicalPrice b * b.volume := by unfold cumPV; simp
    rw [h1, h2, if_neg hb, mul_div_cancel_right₀ _ hb]

/-- C9 witness: the amended statement at a concrete scaling factor 2 and
a concrete nonzero-volume bar. -/
theorem vwap_scale_invariant_and_single_bar_witness :
    (0 : ℚ) < 2 ∧
    compute_vwap (scaleVol 2 [⟨100, 99, 100, 10⟩]) = compute_vwap [⟨100, 99, 100, 10⟩] ∧
    compute_vwap [(⟨3, 2, 1, 5⟩ : Bar)] = [some (typicalPrice ⟨3, 2, 1, 5⟩)] := by
  obtain ⟨h1, h2⟩ := vwap_scale_invariant_and_single_bar 2 (by with_unfolding_all decide)
    [⟨100, 99, 100, 10⟩] ⟨3, 2, 1, 5⟩ (by with_unfolding_all decide)
  exact ⟨by with_unfolding_all decide, h1, h2⟩
